import Mathlib

/-!
Verification of the interactive-script adapter in `src/app.py`
(repository `planejador-backend`).

The adapter wraps one invocation of an external, opaque analysis engine:
it redirects the process-wide input source (`builtins.input`), output sink
(`sys.stdout`) and working directory, buffers the engine's file-export
calls in memory, and exposes the whole thing as an HTTP endpoint
(`analyze`).  We embed the adapter shallowly: the engine is an opaque
parameter describing what the invoked operation printed, which export
calls it made with which arguments, and whether it raised; the
process-wide state it redirects is threaded explicitly through
`ProcState`.
-/

set_option autoImplicit false

namespace KwPlanner

/-- JSON values, as produced by Flask's `jsonify`.  Object key order is
preserved (Python dicts preserve insertion order). -/
inductive Json where
  | str : String → Json
  | num : Int → Json
  | bool : Bool → Json
  | null : Json
  | arr : List Json → Json
  | obj : List (String × Json) → Json
deriving Repr

/-- Drop leading and trailing whitespace from a character list:
the model of Python's `str.strip()` (over the common whitespace set). -/
def stripL (l : List Char) : List Char :=
  (l.dropWhile Char.isWhitespace).rdropWhile Char.isWhitespace

/-- Python's `str.strip()` on the string level, used by `mock_input`
(line 55 of `src/app.py`) and by the validation code (lines 136-174). -/
def pyStrip (s : String) : String :=
  String.mk (stripL s.data)

/-- The process-wide input source (`builtins.input`): either the real
console input or the adapter's `mock_input` closure over an answer
queue (lines 68-70). -/
inductive InputSrc where
  | console : InputSrc
  | mock : List String → InputSrc
deriving Repr, DecidableEq

/-- The process-wide output sink (`sys.stdout`): either the real console
or the in-memory `io.StringIO` capture buffer (lines 49, 71-72). -/
inductive OutputSink where
  | console : OutputSink
  | capture : String → OutputSink
deriving Repr, DecidableEq

/-- The process-wide state `run_analysis` redirects and must restore:
`builtins.input`, `sys.stdout` and the current working directory.
`engineCalls` counts engine operations actually invoked (lines 80-95)
and `restores` counts executions of the `finally` restoration block
(lines 100-106); both are observation counters for the frame claims. -/
structure ProcState where
  inputSource : InputSrc
  stdoutSink : OutputSink
  cwd : String
  engineCalls : Nat
  restores : Nat
deriving Repr, DecidableEq

/-- One run of an engine operation, observed through the interception
surface: the text it printed to the redirected stdout, the
`save_to_csv_simple` / `save_to_csv_simple_pruning` calls it made
(filename and row data of each, in order), and `some msg` when it raised
an exception whose `str` is `msg`.  When it raised, `output` and `saves`
are the partial artifacts produced up to the failure point. -/
structure EngineRun where
  output : String
  saves : List (String × List Json)
  error : Option String
deriving Repr

/-- The opaque analysis engine (`arquivo-base-fixed.py`), freshly loaded
per call (lines 62-63): one routine per operation selector.  Each
routine receives the answer stream the adapter's `mock_input` delivers
(the answer the n-th `input()` call returns). -/
structure Engine where
  run_site_analysis : (Nat → String) → EngineRun
  run_niche_analysis : (Nat → String) → EngineRun
  run_url_analysis : (Nat → String) → EngineRun
  run_keyword_variations : (Nat → String) → EngineRun
  run_theme_analysis : (Nat → String) → EngineRun
  run_content_pruning_analysis : (Nat → String) → EngineRun
  show_learning_dashboard : (Nat → String) → EngineRun
  export_learning_data : (Nat → String) → EngineRun

/-- The selector dispatch of lines 80-97: which engine routine each
option selects, `none` for the invalid-selector `else` branch. -/
def dispatch (m : Engine) (option : Int) :
    Option ((Nat → String) → EngineRun) :=
  if option = 1 then some m.run_site_analysis
  else if option = 2 then some m.run_niche_analysis
  else if option = 3 then some m.run_url_analysis
  else if option = 4 then some m.run_keyword_variations
  else if option = 5 then some m.run_theme_analysis
  else if option = 6 then some m.run_content_pruning_analysis
  else if option = 7 then some m.show_learning_dashboard
  else if option = 8 then some m.export_learning_data
  else none

/-- One call of `mock_input` (lines 53-56): pop the front of the queue
and strip it; once the queue is exhausted return the empty string.
Returns the delivered answer together with the remaining queue. -/
def mock_input (q : List String) : String × List String :=
  match q with
  | [] => ("", [])
  | a :: rest => (pyStrip a, rest)

/-- The queue remaining after `n` calls of `mock_input`. -/
def inputQueueAfter (q : List String) : Nat → List String
  | 0 => q
  | n + 1 => (mock_input (inputQueueAfter q n)).2

/-- The answer the engine's `n`-th `input()` call receives (counted from
zero) when the adapter installed `mock_input` over the queue `q`. -/
def nthAnswer (q : List String) (n : Nat) : String :=
  (mock_input (inputQueueAfter q n)).1

/-- The record `mock_save_to_csv_simple` appends per export call
(lines 58-60): an object with exactly the keys `filename` and `data`.
These realise the spec's Export Record fields `name` (a string) and
`payload` (a sequence of records). -/
def exportRecord (call : String × List Json) : Json :=
  Json.obj [("filename", Json.str call.1), ("data", Json.arr call.2)]

/-- The engine's support directory (`APP_DIR`, line 24); the adapter
switches the working directory here for the invocation (line 75).  Its
concrete value (`BASE_DIR/../app`) is deployment-dependent; only its
identity matters here. -/
def APP_DIR : String := "../app"

/-- Shallow embedding of `run_analysis` (lines 42-108).  Beyond the
source's three parameters it takes the freshly loaded engine module
(`load_script_module` plus `exec_module`, lines 62-63, with the two save
routines patched to the export-buffering mock, lines 66-67) and the
process-wide state.  `timeout_seconds` mirrors the source signature
(line 42, default 600), where it is never read.  Returns the
`(stdout_text, exports_list, error_message)` triple together with the
post-call process state. -/
def run_analysis (option : Int) (input_responses : List String)
    (timeout_seconds : Nat) (m : Engine) (s : ProcState) :
    (String × List Json × Option String) × ProcState :=
  let original_input := s.inputSource
  let old_stdout := s.stdoutSink
  let old_cwd := s.cwd
  -- install the redirections (lines 66-77)
  let s1 : ProcState :=
    { s with inputSource := InputSrc.mock input_responses,
             stdoutSink := OutputSink.capture "",
             cwd := APP_DIR }
  match dispatch m option with
  | some routine =>
      let r := routine (nthAnswer input_responses)
      let s2 : ProcState :=
        { s1 with stdoutSink := OutputSink.capture r.output,
                  engineCalls := s1.engineCalls + 1 }
      -- `finally` block (lines 100-106): tear the redirections down;
      -- reached from the normal return and from the `except` branch alike
      let s3 : ProcState :=
        { s2 with inputSource := original_input,
                  stdoutSink := old_stdout,
                  cwd := old_cwd,
                  restores := s2.restores + 1 }
      ((r.output, r.saves.map exportRecord, r.error), s3)
  | none =>
      -- invalid-selector `else` branch (lines 96-97), which also runs
      -- the `finally` block on its way out
      let s3 : ProcState :=
        { s1 with inputSource := original_input,
                  stdoutSink := old_stdout,
                  cwd := old_cwd,
                  restores := s1.restores + 1 }
      (("", [], some ("Opção inválida: " ++ toString option)), s3)

/-- The `params` object of the request body: the optional named
parameters the endpoint reads (lines 136-174). -/
structure Params where
  domain_url : Option String := none
  include_subdomains : Option Bool := none
  niche : Option String := none
  url : Option String := none
  keyword : Option String := none
  theme : Option String := none
deriving Repr

/-- The expression `(params.get(k) or "").strip()` used on every string
parameter (lines 136, 144, 149, 156, 161-162, 169). -/
def cleanedParam (v : Option String) : String :=
  pyStrip (v.getD "")

/-- The scheme test `url.startswith(("http://", "https://"))`
(lines 139, 152, 165, 172). -/
def hasScheme (s : String) : Bool :=
  List.isPrefixOf "http://".data s.data
    || List.isPrefixOf "https://".data s.data

/-- Scheme defaulting (lines 139-140, 152-153, 165-166, 172-173):
prefix `https://` when no scheme is given. -/
def schemeDefault (u : String) : String :=
  if hasScheme u then u else "https://" ++ u

/-- Validation and answer-queue construction of `analyze`
(lines 135-179): either a client-error message (returned with HTTP 400)
or the `input_responses` list handed to `run_analysis`. -/
def buildQueue (option : Int) (params : Params) :
    Except String (List String) :=
  if option = 1 then
    let domain_url := cleanedParam params.domain_url
    if domain_url = "" then Except.error "domain_url é obrigatório"
    else
      let domain_url := schemeDefault domain_url
      let include_sub := params.include_subdomains.getD false
      Except.ok [domain_url, if include_sub then "s" else "n"]
  else if option = 2 then
    let niche := cleanedParam params.niche
    if niche = "" then Except.error "niche é obrigatório"
    else Except.ok [niche]
  else if option = 3 then
    let url := cleanedParam params.url
    if url = "" then Except.error "url é obrigatório"
    else Except.ok [schemeDefault url]
  else if option = 4 then
    let keyword := cleanedParam params.keyword
    if keyword = "" then Except.error "keyword é obrigatório"
    else Except.ok [keyword]
  else if option = 5 then
    let domain_url := cleanedParam params.domain_url
    let theme := cleanedParam params.theme
    if domain_url = "" ∨ theme = "" then
      Except.error "domain_url e theme são obrigatórios"
    else Except.ok [schemeDefault domain_url, theme]
  else if option = 6 then
    let domain_url := cleanedParam params.domain_url
    if domain_url = "" then Except.error "domain_url é obrigatório"
    else
      let include_sub := params.include_subdomains.getD false
      Except.ok [schemeDefault domain_url, if include_sub then "s" else "n"]
  else if option = 7 ∨ option = 8 then Except.ok []
  else Except.error "option deve ser entre 1 e 8"

/-- An HTTP response: status code and JSON body. -/
structure HttpResponse where
  status : Nat
  body : Json
deriving Repr

/-- Shallow embedding of the `analyze` endpoint (lines 117-195) after
JSON parsing: validate and build the answer queue, call `run_analysis`
(line 181, with the default `timeout_seconds = 600`), and shape the JSON
response.  The `if err:` test of line 182 is Python truthiness: `None`
and the empty string are both falsy.  Returns the response together with
the post-call process state. -/
def analyze (option : Int) (params : Params) (m : Engine)
    (s : ProcState) : HttpResponse × ProcState :=
  match buildQueue option params with
  | Except.error msg =>
      ({ status := 400, body := Json.obj [("error", Json.str msg)] }, s)
  | Except.ok input_responses =>
      let res := run_analysis option input_responses 600 m s
      let output_text := res.1.1
      let exports := res.1.2.1
      let ok : HttpResponse :=
        { status := 200,
          body := Json.obj [("output", Json.str output_text),
                            ("exports", Json.arr exports),
                            ("error", Json.null)] }
      match res.1.2.2 with
      | some e =>
          if e = "" then (ok, res.2)
          else
            ({ status := 200,
               body := Json.obj [("output", Json.str output_text),
                                 ("exports", Json.arr []),
                                 ("error", Json.str e)] }, res.2)
      | none => (ok, res.2)

/-- Key lookup in a JSON object field list. -/
def lookupKey (k : String) : List (String × Json) → Option Json
  | [] => none
  | (k0, v) :: rest => if k0 = k then some v else lookupKey k rest

/-- Look a key up in a response's JSON object body (for stating facts
about responses). -/
def bodyField (r : HttpResponse) (k : String) : Option Json :=
  match r.body with
  | Json.obj kvs => lookupKey k kvs
  | _ => none

/-- Written from the spec (§6 table, required-parameter column): the
parameter value is valid when present and non-empty after trimming;
yields the validated (trimmed) value. -/
def validParam (v : Option String) : Option String :=
  match v with
  | none => none
  | some raw =>
      let t := pyStrip raw
      if t = "" then none else some t

/-- Written from the spec (§6 table, `include_subdomains` is a boolean
defaulting to false). -/
def includeSubFlag (params : Params) : Bool :=
  params.include_subdomains.getD false

/-- Written from the spec's words (§6 table): the derived answer queue
for each selector over the validated parameter values, where
`schemeDefault` realises the table's "prefixed with `https://` if no
scheme given"; `none` when a required parameter is absent or the
selector is out of range. -/
def specAnswerQueue (selector : Int) (params : Params) :
    Option (List String) :=
  if selector = 1 then
    (validParam params.domain_url).map (fun d =>
      [schemeDefault d, if includeSubFlag params then "s" else "n"])
  else if selector = 2 then
    (validParam params.niche).map (fun n => [n])
  else if selector = 3 then
    (validParam params.url).map (fun u => [schemeDefault u])
  else if selector = 4 then
    (validParam params.keyword).map (fun k => [k])
  else if selector = 5 then
    (validParam params.domain_url).bind (fun d =>
      (validParam params.theme).map (fun t => [schemeDefault d, t]))
  else if selector = 6 then
    (validParam params.domain_url).map (fun d =>
      [schemeDefault d, if includeSubFlag params then "s" else "n"])
  else if selector = 7 then some []
  else if selector = 8 then some []
  else none

/-- The request omits a parameter the §6 table marks required for its
selector, or supplies it empty (after trimming). -/
def missingRequired (selector : Int) (params : Params) : Prop :=
  (selector = 1 ∧ cleanedParam params.domain_url = "")
  ∨ (selector = 2 ∧ cleanedParam params.niche = "")
  ∨ (selector = 3 ∧ cleanedParam params.url = "")
  ∨ (selector = 4 ∧ cleanedParam params.keyword = "")
  ∨ (selector = 5 ∧ (cleanedParam params.domain_url = ""
       ∨ cleanedParam params.theme = ""))
  ∨ (selector = 6 ∧ cleanedParam params.domain_url = "")

/-- A pre-call process state fixture (console input and output, some
working directory, zeroed counters). -/
def procState0 : ProcState :=
  { inputSource := InputSrc.console, stdoutSink := OutputSink.console,
    cwd := "/srv", engineCalls := 0, restores := 0 }

/-- An engine whose every routine behaves as the fixed run `r`. -/
def engineConst (r : EngineRun) : Engine :=
  { run_site_analysis := fun _ => r,
    run_niche_analysis := fun _ => r,
    run_url_analysis := fun _ => r,
    run_keyword_variations := fun _ => r,
    run_theme_analysis := fun _ => r,
    run_content_pruning_analysis := fun _ => r,
    show_learning_dashboard := fun _ => r,
    export_learning_data := fun _ => r }

/-- Engine run fixture: prints `"partial"`, performs one export, then
raises `RuntimeError("boom")`. -/
def runBoom : EngineRun :=
  { output := "partial",
    saves := [("keywords.csv", [Json.str "row1"])],
    error := some "boom" }

/-- Engine run fixture: prints `"partial"`, performs one export, then
raises an exception whose `str` is the empty string (e.g. a bare
`raise Exception()`). -/
def runSilentFail : EngineRun :=
  { output := "partial",
    saves := [("keywords.csv", [Json.str "row1"])],
    error := some "" }

/-- Engine run fixture: completes normally with one export. -/
def runOk : EngineRun :=
  { output := "done",
    saves := [("out.csv", [Json.str "r"])],
    error := none }

/-- A request body with no parameters. -/
def paramsEmpty : Params := {}

/-- The head of `dropWhile p l`, when present, does not satisfy `p`. -/
theorem head?_dropWhile_ws {p : Char → Bool} {l : List Char} {c : Char}
    (h : (l.dropWhile p).head? = some c) : p c = false := by
  induction l with
  | nil => simp [List.dropWhile] at h
  | cons a t ih =>
    rw [List.dropWhile_cons] at h
    by_cases hp : p a
    · rw [if_pos hp] at h
      exact ih h
    · rw [if_neg hp] at h
      simp only [List.head?_cons, Option.some.injEq] at h
      subst h
      simpa using hp

/-- The head of a stripped list is never whitespace. -/
theorem head_stripL_not_ws {l : List Char} {c : Char}
    (h : (stripL l).head? = some c) : c.isWhitespace = false := by
  obtain ⟨t, ht⟩ := List.rdropWhile_prefix Char.isWhitespace
    (l.dropWhile Char.isWhitespace)
  have hh : (l.dropWhile Char.isWhitespace).head? = some c := by
    rw [← ht, List.head?_append]
    rw [stripL] at h
    rw [h]
    rfl
  exact head?_dropWhile_ws hh

/-- The last element of a stripped list is never whitespace. -/
theorem getLast_stripL_not_ws {l : List Char} {c : Char}
    (h : (stripL l).getLast? = some c) : c.isWhitespace = false := by
  rw [stripL, List.rdropWhile, List.getLast?_reverse] at h
  exact head?_dropWhile_ws h

/-- Stripping is idempotent. -/
theorem stripL_idem (l : List Char) : stripL (stripL l) = stripL l := by
  have h1 : (stripL l).dropWhile Char.isWhitespace = stripL l := by
    cases hh : stripL l with
    | nil => rfl
    | cons a t =>
      have ha : a.isWhitespace = false := head_stripL_not_ws (by rw [hh]; rfl)
      rw [List.dropWhile_cons]
      simp [ha]
  calc stripL (stripL l)
      = (stripL l).rdropWhile Char.isWhitespace := by rw [stripL, h1]
    _ = ((l.dropWhile Char.isWhitespace).rdropWhile
          Char.isWhitespace).rdropWhile Char.isWhitespace := rfl
    _ = (l.dropWhile Char.isWhitespace).rdropWhile Char.isWhitespace :=
          List.rdropWhile_idempotent _ _
    _ = stripL l := rfl

/-- A list of whitespace strips to the empty list. -/
theorem stripL_eq_nil_of_all_ws {l : List Char}
    (h : l.all Char.isWhitespace) : stripL l = [] := by
  have hd : l.dropWhile Char.isWhitespace = [] := by
    rw [List.dropWhile_eq_nil_iff]
    intro x hx
    exact List.all_eq_true.mp h x hx
  rw [stripL, hd]
  simp

/-- A list whose two ends are not whitespace is strip-fixed. -/
theorem stripL_eq_self_of_ends {m : List Char}
    (h1 : ∀ c, m.head? = some c → c.isWhitespace = false)
    (h2 : ∀ c, m.getLast? = some c → c.isWhitespace = false) :
    stripL m = m := by
  have hd : m.dropWhile Char.isWhitespace = m := by
    cases hm : m with
    | nil => rfl
    | cons a t =>
      have ha : a.isWhitespace = false := by
        apply h1
        rw [hm]
        rfl
      rw [List.dropWhile_cons]
      simp [ha]
  rw [stripL, hd, List.rdropWhile_eq_self_iff]
  intro hl
  have := h2 (m.getLast hl) (List.getLast?_eq_getLast m hl)
  simp [this]

/-- After `n` calls, `mock_input` has consumed the first `n` queue
entries. -/
theorem inputQueueAfter_eq_drop (q : List String) (n : Nat) :
    inputQueueAfter q n = q.drop n := by
  induction n with
  | zero => rfl
  | succ n ih =>
    have htail : ∀ l : List String, (mock_input l).2 = l.tail := by
      intro l
      cases l <;> rfl
    rw [inputQueueAfter, ih, htail, List.tail_drop]

/-- The answer the `n`-th `input()` call receives: the `n`-th queued
answer, stripped, while the queue lasts; the empty string afterwards. -/
theorem nthAnswer_eq (q : List String) (n : Nat) :
    nthAnswer q n
      = if h : n < q.length then pyStrip (q.get ⟨n, h⟩) else "" := by
  rw [nthAnswer, inputQueueAfter_eq_drop]
  by_cases h : n < q.length
  · rw [dif_pos h, List.drop_eq_getElem_cons h]
    rfl
  · rw [dif_neg h, List.drop_eq_nil_of_le (Nat.le_of_not_lt h)]
    rfl

/-- `pyStrip` is idempotent. -/
theorem pyStrip_idem (s : String) : pyStrip (pyStrip s) = pyStrip s := by
  unfold pyStrip
  rw [stripL_idem]

/-- Scheme defaulting preserves strip-fixedness of validated values:
for a strip-fixed `t`, `schemeDefault t` is strip-fixed too. -/
theorem pyStrip_schemeDefault {t : String} (ht : pyStrip t = t) :
    pyStrip (schemeDefault t) = schemeDefault t := by
  unfold schemeDefault
  by_cases hs : hasScheme t
  · rw [if_pos hs]
    exact ht
  · rw [if_neg hs]
    unfold pyStrip
    have hdata : ("https://" ++ t).data = "https://".data ++ t.data :=
      String.data_append "https://" t
    rw [hdata]
    have hfix : stripL ("https://".data ++ t.data)
        = "https://".data ++ t.data := by
      apply stripL_eq_self_of_ends
      · intro c hc
        have : c = 'h' := by
          have := hc
          simpa using this.symm
        rw [this]
        decide
      · intro c hc
        rcases ht2 : t.data with _ | ⟨a, u⟩
        · rw [ht2] at hc
          simp only [List.append_nil] at hc
          have : c = '/' := by
            have h0 : ("https://".data).getLast? = some '/' := by decide
            rw [h0] at hc
            exact ((Option.some.injEq _ _).mp hc).symm
          rw [this]
          decide
        · have hne : t.data ≠ [] := by rw [ht2]; simp
          rw [List.getLast?_append_of_ne_nil _ hne] at hc
          apply getLast_stripL_not_ws (l := t.data)
          have hts : stripL t.data = t.data := by
            have := congrArg String.data ht
            simpa [pyStrip] using this
          rw [hts]
          exact hc
    rw [hfix, ← hdata]

/-- `pyStrip` of the empty string. -/
theorem pyStrip_empty : pyStrip "" = "" := rfl

/-- Unfolding of `buildQueue` at selector 1. -/
theorem buildQueue_one (params : Params) :
    buildQueue 1 params
      = (if cleanedParam params.domain_url = "" then
           Except.error "domain_url é obrigatório"
         else
           Except.ok [schemeDefault (cleanedParam params.domain_url),
             if params.include_subdomains.getD false then "s" else "n"]) :=
  rfl

/-- Unfolding of `buildQueue` at selector 2. -/
theorem buildQueue_two (params : Params) :
    buildQueue 2 params
      = (if cleanedParam params.niche = "" then
           Except.error "niche é obrigatório"
         else Except.ok [cleanedParam params.niche]) :=
  rfl

/-- Unfolding of `buildQueue` at selector 3. -/
theorem buildQueue_three (params : Params) :
    buildQueue 3 params
      = (if cleanedParam params.url = "" then
           Except.error "url é obrigatório"
         else Except.ok [schemeDefault (cleanedParam params.url)]) :=
  rfl

/-- Unfolding of `buildQueue` at selector 4. -/
theorem buildQueue_four (params : Params) :
    buildQueue 4 params
      = (if cleanedParam params.keyword = "" then
           Except.error "keyword é obrigatório"
         else Except.ok [cleanedParam params.keyword]) :=
  rfl

/-- Unfolding of `buildQueue` at selector 5. -/
theorem buildQueue_five (params : Params) :
    buildQueue 5 params
      = (if cleanedParam params.domain_url = "" ∨ cleanedParam params.theme = "" then
           Except.error "domain_url e theme são obrigatórios"
         else Except.ok [schemeDefault (cleanedParam params.domain_url),
                cleanedParam params.theme]) :=
  rfl

/-- Unfolding of `buildQueue` at selector 6. -/
theorem buildQueue_six (params : Params) :
    buildQueue 6 params
      = (if cleanedParam params.domain_url = "" then
           Except.error "domain_url é obrigatório"
         else
           Except.ok [schemeDefault (cleanedParam params.domain_url),
             if params.include_subdomains.getD false then "s" else "n"]) :=
  rfl

/-- Unfolding of `buildQueue` at selector 7. -/
theorem buildQueue_seven (params : Params) :
    buildQueue 7 params = Except.ok [] :=
  rfl

/-- Unfolding of `buildQueue` at selector 8. -/
theorem buildQueue_eight (params : Params) :
    buildQueue 8 params = Except.ok [] :=
  rfl

/-- Unfolding of `buildQueue` at an out-of-range selector. -/
theorem buildQueue_invalid (option : Int) (params : Params)
    (h : option < 1 ∨ 8 < option) :
    buildQueue option params
      = Except.error "option deve ser entre 1 e 8" := by
  have h1 : ¬(option = 1) := by omega
  have h2 : ¬(option = 2) := by omega
  have h3 : ¬(option = 3) := by omega
  have h4 : ¬(option = 4) := by omega
  have h5 : ¬(option = 5) := by omega
  have h6 : ¬(option = 6) := by omega
  have h78 : ¬(option = 7 ∨ option = 8) := by omega
  rw [buildQueue, if_neg h1, if_neg h2, if_neg h3, if_neg h4, if_neg h5,
    if_neg h6, if_neg h78]

/-- Unfolding of `dispatch` at an out-of-range selector. -/
theorem dispatch_invalid (m : Engine) (option : Int)
    (h : option < 1 ∨ 8 < option) : dispatch m option = none := by
  have h1 : ¬(option = 1) := by omega
  have h2 : ¬(option = 2) := by omega
  have h3 : ¬(option = 3) := by omega
  have h4 : ¬(option = 4) := by omega
  have h5 : ¬(option = 5) := by omega
  have h6 : ¬(option = 6) := by omega
  have h7 : ¬(option = 7) := by omega
  have h8 : ¬(option = 8) := by omega
  rw [dispatch, if_neg h1, if_neg h2, if_neg h3, if_neg h4, if_neg h5,
    if_neg h6, if_neg h7, if_neg h8]

/-- A valid selector always dispatches to some routine. -/
theorem dispatch_valid (m : Engine) (option : Int)
    (h1 : 1 ≤ option) (h8 : option ≤ 8) :
    ∃ routine, dispatch m option = some routine := by
  unfold dispatch
  split_ifs <;> first | exact ⟨_, rfl⟩ | omega

/-- Unfolding of `run_analysis` when the selector dispatches to an
engine routine: the triple carries the routine's (possibly partial)
output, the buffered export records and the error message, and the
post-state has every redirected component restored, one more engine
call and one more restoration. -/
theorem run_analysis_valid (option : Int) (q : List String) (t : Nat)
    (m : Engine) (s : ProcState)
    (routine : (Nat → String) → EngineRun)
    (hd : dispatch m option = some routine) :
    run_analysis option q t m s
      = (((routine (nthAnswer q)).output,
          (routine (nthAnswer q)).saves.map exportRecord,
          (routine (nthAnswer q)).error),
         { s with engineCalls := s.engineCalls + 1,
                  restores := s.restores + 1 }) := by
  unfold run_analysis
  rw [hd]

/-- Unfolding of `run_analysis` at an out-of-range selector: empty
output, no exports, an error message naming the selector, no engine
call, and the redirections still torn down once. -/
theorem run_analysis_invalid (option : Int) (q : List String) (t : Nat)
    (m : Engine) (s : ProcState) (hd : dispatch m option = none) :
    run_analysis option q t m s
      = (("", [], some ("Opção inválida: " ++ toString option)),
         { s with restores := s.restores + 1 }) := by
  unfold run_analysis
  rw [hd]

/-- Unfolding of `analyze` when validation rejects the request. -/
theorem analyze_reject (option : Int) (params : Params) (m : Engine)
    (s : ProcState) (msg : String)
    (hq : buildQueue option params = Except.error msg) :
    analyze option params m s
      = ({ status := 400, body := Json.obj [("error", Json.str msg)] },
         s) := by
  unfold analyze
  rw [hq]

/-- Unfolding of `analyze` when the invocation reports a non-empty
error message: HTTP 200, the partial output, an empty exports array and
the message in the `error` field. -/
theorem analyze_engine_error (option : Int) (params : Params)
    (m : Engine) (s : ProcState) (q : List String) (e : String)
    (hq : buildQueue option params = Except.ok q)
    (he : (run_analysis option q 600 m s).1.2.2 = some e)
    (hne : e ≠ "") :
    analyze option params m s
      = ({ status := 200,
           body := Json.obj
             [("output", Json.str (run_analysis option q 600 m s).1.1),
              ("exports", Json.arr []),
              ("error", Json.str e)] },
         (run_analysis option q 600 m s).2) := by
  unfold analyze
  rw [hq]
  dsimp only
  rw [he]
  dsimp only
  rw [if_neg hne]

/-- Unfolding of `analyze` when the invocation reports no error: HTTP
200 with the output, the buffered exports and a null `error` field. -/
theorem analyze_success (option : Int) (params : Params)
    (m : Engine) (s : ProcState) (q : List String)
    (hq : buildQueue option params = Except.ok q)
    (he : (run_analysis option q 600 m s).1.2.2 = none) :
    analyze option params m s
      = ({ status := 200,
           body := Json.obj
             [("output", Json.str (run_analysis option q 600 m s).1.1),
              ("exports", Json.arr (run_analysis option q 600 m s).1.2.1),
              ("error", Json.null)] },
         (run_analysis option q 600 m s).2) := by
  unfold analyze
  rw [hq]
  dsimp only
  rw [he]

/-- Unfolding of `analyze` when the invocation reports an error whose
message is the empty string: `if err:` is falsy, so the success shape is
returned and the raised error is reported as `null`. -/
theorem analyze_empty_error (option : Int) (params : Params)
    (m : Engine) (s : ProcState) (q : List String)
    (hq : buildQueue option params = Except.ok q)
    (he : (run_analysis option q 600 m s).1.2.2 = some "") :
    analyze option params m s
      = ({ status := 200,
           body := Json.obj
             [("output", Json.str (run_analysis option q 600 m s).1.1),
              ("exports", Json.arr (run_analysis option q 600 m s).1.2.1),
              ("error", Json.null)] },
         (run_analysis option q 600 m s).2) := by
  unfold analyze
  rw [hq]
  dsimp only
  rw [he]
  dsimp only
  rw [if_pos rfl]

/-- Every entry of an answer queue the endpoint constructs is
strip-fixed: the validation already trimmed it. -/
theorem buildQueue_entries_stripFixed (option : Int) (params : Params)
    (q : List String) (hq : buildQueue option params = Except.ok q) :
    ∀ a ∈ q, pyStrip a = a := by
  have hsn : ∀ b : Bool,
      pyStrip (if b then "s" else "n") = (if b then "s" else "n") := by
    intro b
    cases b <;> rfl
  have hclean : ∀ v : Option String,
      pyStrip (cleanedParam v) = cleanedParam v :=
    fun v => pyStrip_idem _
  have hscheme : ∀ v : Option String,
      pyStrip (schemeDefault (cleanedParam v))
        = schemeDefault (cleanedParam v) :=
    fun v => pyStrip_schemeDefault (hclean v)
  have htwo : ∀ (x y : String), pyStrip x = x → pyStrip y = y →
      ∀ a ∈ [x, y], pyStrip a = a := by
    intro x y hx hy a ha
    rcases List.mem_cons.mp ha with h | h
    · rw [h]; exact hx
    · rw [List.mem_singleton.mp h]; exact hy
  have hone : ∀ (x : String), pyStrip x = x → ∀ a ∈ [x], pyStrip a = a := by
    intro x hx a ha
    rw [List.mem_singleton.mp ha]
    exact hx
  by_cases h1 : option = 1
  · subst h1
    rw [buildQueue_one] at hq
    split at hq
    · cases hq
    · cases hq
      exact htwo _ _ (hscheme _) (hsn _)
  by_cases h2 : option = 2
  · subst h2
    rw [buildQueue_two] at hq
    split at hq
    · cases hq
    · cases hq
      exact hone _ (hclean _)
  by_cases h3 : option = 3
  · subst h3
    rw [buildQueue_three] at hq
    split at hq
    · cases hq
    · cases hq
      exact hone _ (hscheme _)
  by_cases h4 : option = 4
  · subst h4
    rw [buildQueue_four] at hq
    split at hq
    · cases hq
    · cases hq
      exact hone _ (hclean _)
  by_cases h5 : option = 5
  · subst h5
    rw [buildQueue_five] at hq
    split at hq
    · cases hq
    · cases hq
      exact htwo _ _ (hscheme _) (hclean _)
  by_cases h6 : option = 6
  · subst h6
    rw [buildQueue_six] at hq
    split at hq
    · cases hq
    · cases hq
      exact htwo _ _ (hscheme _) (hsn _)
  by_cases h7 : option = 7
  · subst h7
    rw [buildQueue_seven] at hq
    cases hq
    intro a ha
    simp at ha
  by_cases h8 : option = 8
  · subst h8
    rw [buildQueue_eight] at hq
    cases hq
    intro a ha
    simp at ha
  rw [buildQueue_invalid option params (by omega)] at hq
  cases hq

/-- Unfolding of `specAnswerQueue` at an out-of-range selector. -/
theorem specAnswerQueue_invalid (option : Int) (params : Params)
    (h : option < 1 ∨ 8 < option) :
    specAnswerQueue option params = none := by
  have h1 : ¬(option = 1) := by omega
  have h2 : ¬(option = 2) := by omega
  have h3 : ¬(option = 3) := by omega
  have h4 : ¬(option = 4) := by omega
  have h5 : ¬(option = 5) := by omega
  have h6 : ¬(option = 6) := by omega
  have h7 : ¬(option = 7) := by omega
  have h8 : ¬(option = 8) := by omega
  rw [specAnswerQueue, if_neg h1, if_neg h2, if_neg h3, if_neg h4,
    if_neg h5, if_neg h6, if_neg h7, if_neg h8]

/-- `validParam` against the code's emptiness test: a parameter is valid
exactly when its cleaned form is non-empty, and it then validates to the
cleaned form. -/
theorem validParam_cases (v : Option String) :
    (cleanedParam v = "" → validParam v = none)
    ∧ (cleanedParam v ≠ "" → validParam v = some (cleanedParam v)) := by
  cases v with
  | none =>
    constructor
    · intro _
      rfl
    · intro h
      exact absurd rfl h
  | some raw =>
    constructor
    · intro h
      have h2 : pyStrip raw = "" := h
      unfold validParam
      dsimp only
      rw [if_pos h2]
    · intro h
      have h2 : ¬(pyStrip raw = "") := h
      unfold validParam
      dsimp only
      rw [if_neg h2]
      rfl

/-- The endpoint's queue construction and the spec's §6 table agree:
the code accepts exactly the requests the table validates, and then
builds exactly the table's queue. -/
theorem buildQueue_ok_iff_spec (option : Int) (params : Params)
    (q : List String) :
    buildQueue option params = Except.ok q
      ↔ specAnswerQueue option params = some q := by
  by_cases h1 : option = 1
  · subst h1
    rw [buildQueue_one, specAnswerQueue, if_pos rfl]
    by_cases hc : cleanedParam params.domain_url = ""
    · rw [if_pos hc, (validParam_cases _).1 hc]
      simp
    · rw [if_neg hc, (validParam_cases _).2 hc]
      simp [includeSubFlag]
  by_cases h2 : option = 2
  · subst h2
    rw [buildQueue_two, specAnswerQueue]
    rw [if_neg (by omega : ¬((2 : Int) = 1)), if_pos rfl]
    by_cases hc : cleanedParam params.niche = ""
    · rw [if_pos hc, (validParam_cases _).1 hc]
      simp
    · rw [if_neg hc, (validParam_cases _).2 hc]
      simp
  by_cases h3 : option = 3
  · subst h3
    rw [buildQueue_three, specAnswerQueue]
    rw [if_neg (by omega : ¬((3 : Int) = 1)),
      if_neg (by omega : ¬((3 : Int) = 2)), if_pos rfl]
    by_cases hc : cleanedParam params.url = ""
    · rw [if_pos hc, (validParam_cases _).1 hc]
      simp
    · rw [if_neg hc, (validParam_cases _).2 hc]
      simp
  by_cases h4 : option = 4
  · subst h4
    rw [buildQueue_four, specAnswerQueue]
    rw [if_neg (by omega : ¬((4 : Int) = 1)),
      if_neg (by omega : ¬((4 : Int) = 2)),
      if_neg (by omega : ¬((4 : Int) = 3)), if_pos rfl]
    by_cases hc : cleanedParam params.keyword = ""
    · rw [if_pos hc, (validParam_cases _).1 hc]
      simp
    · rw [if_neg hc, (validParam_cases _).2 hc]
      simp
  by_cases h5 : option = 5
  · subst h5
    rw [buildQueue_five, specAnswerQueue]
    rw [if_neg (by omega : ¬((5 : Int) = 1)),
      if_neg (by omega : ¬((5 : Int) = 2)),
      if_neg (by omega : ¬((5 : Int) = 3)),
      if_neg (by omega : ¬((5 : Int) = 4)), if_pos rfl]
    by_cases hd : cleanedParam params.domain_url = ""
    · rw [if_pos (Or.inl hd), (validParam_cases _).1 hd]
      simp
    · by_cases ht : cleanedParam params.theme = ""
      · rw [if_pos (Or.inr ht), (validParam_cases _).2 hd,
          (validParam_cases _).1 ht]
        simp
      · rw [if_neg (by tauto), (validParam_cases _).2 hd,
          (validParam_cases _).2 ht]
        simp
  by_cases h6 : option = 6
  · subst h6
    rw [buildQueue_six, specAnswerQueue]
    rw [if_neg (by omega : ¬((6 : Int) = 1)),
      if_neg (by omega : ¬((6 : Int) = 2)),
      if_neg (by omega : ¬((6 : Int) = 3)),
      if_neg (by omega : ¬((6 : Int) = 4)),
      if_neg (by omega : ¬((6 : Int) = 5)), if_pos rfl]
    by_cases hc : cleanedParam params.domain_url = ""
    · rw [if_pos hc, (validParam_cases _).1 hc]
      simp
    · rw [if_neg hc, (validParam_cases _).2 hc]
      simp [includeSubFlag]
  by_cases h7 : option = 7
  · subst h7
    rw [buildQueue_seven]
    have hs : specAnswerQueue 7 params = some [] := rfl
    rw [hs]
    simp
  by_cases h8 : option = 8
  · subst h8
    rw [buildQueue_eight]
    have hs : specAnswerQueue 8 params = some [] := rfl
    rw [hs]
    simp
  rw [buildQueue_invalid option params (by omega),
    specAnswerQueue_invalid option params (by omega)]
  simp

/-- Every export record `run_analysis` returns has the two-field
`filename`/`data` object shape. -/
theorem run_analysis_export_shape (option : Int) (q : List String)
    (t : Nat) (m : Engine) (s : ProcState) (j : Json)
    (h : j ∈ (run_analysis option q t m s).1.2.1) :
    ∃ n d, j = Json.obj [("filename", Json.str n), ("data", Json.arr d)] := by
  rcases hd : dispatch m option with _ | routine
  · rw [run_analysis_invalid option q t m s hd] at h
    simp at h
  · rw [run_analysis_valid option q t m s routine hd] at h
    dsimp only at h
    rcases List.mem_map.mp h with ⟨call, _, hj⟩
    exact ⟨call.1, call.2, by rw [← hj]; rfl⟩


/-- Claim C1, refuted at a concrete input: for a request with selector 7
against an engine that prints `"partial"`, performs one file export and
then raises `RuntimeError("boom")`, `run_analysis` does return the
partial export record, but the HTTP response's exports list is the empty
array — the export record is not in it, so the response does not contain
the partial exports. -/
theorem claim_C1_counterexample :
    (run_analysis 7 [] 600 (engineConst runBoom) procState0).1.2.2
      = some "boom"
    ∧ (run_analysis 7 [] 600 (engineConst runBoom) procState0).1.2.1
        = [Json.obj [("filename", Json.str "keywords.csv"),
                     ("data", Json.arr [Json.str "row1"])]]
    ∧ bodyField (analyze 7 paramsEmpty (engineConst runBoom) procState0).1
        "output" = some (Json.str "partial")
    ∧ bodyField (analyze 7 paramsEmpty (engineConst runBoom) procState0).1
        "error" = some (Json.str "boom")
    ∧ ¬ ∃ xs,
        bodyField (analyze 7 paramsEmpty (engineConst runBoom) procState0).1
          "exports" = some (Json.arr xs)
        ∧ Json.obj [("filename", Json.str "keywords.csv"),
                    ("data", Json.arr [Json.str "row1"])] ∈ xs := by
  refine ⟨rfl, rfl, rfl, rfl, ?_⟩
  rintro ⟨xs, hxs, hmem⟩
  have hempty :
      bodyField (analyze 7 paramsEmpty (engineConst runBoom) procState0).1
        "exports" = some (Json.arr []) := rfl
  rw [hempty] at hxs
  injection hxs with h1
  injection h1 with h2
  rw [← h2] at hmem
  simp at hmem

/-- Claim C1 (amended): when the engine raises with a non-empty message
after producing partial output and export records, `run_analysis`
returns the partial output and the partial export records together with
the error message, and the HTTP response carries the partial output and
the non-null error — but the `exports` field of the response is the
empty array: the partial export records are dropped at the HTTP layer
(line 185 hardcodes `"exports": []`). -/
theorem claim_C1_partial_on_failure (option : Int) (params : Params)
    (m : Engine) (s : ProcState) (q : List String)
    (routine : (Nat → String) → EngineRun) (e : String)
    (hq : buildQueue option params = Except.ok q)
    (hd : dispatch m option = some routine)
    (he : (routine (nthAnswer q)).error = some e) (hne : e ≠ "") :
    (run_analysis option q 600 m s).1
      = ((routine (nthAnswer q)).output,
         (routine (nthAnswer q)).saves.map exportRecord, some e)
    ∧ (analyze option params m s).1.status = 200
    ∧ bodyField (analyze option params m s).1 "output"
        = some (Json.str (routine (nthAnswer q)).output)
    ∧ bodyField (analyze option params m s).1 "error"
        = some (Json.str e)
    ∧ bodyField (analyze option params m s).1 "exports"
        = some (Json.arr []) := by
  have hrun := run_analysis_valid option q 600 m s routine hd
  have herr : (run_analysis option q 600 m s).1.2.2 = some e := by
    rw [hrun]
    exact he
  have hana := analyze_engine_error option params m s q e hq herr hne
  refine ⟨?_, ?_, ?_, ?_, ?_⟩
  · rw [hrun, he]
  · rw [hana]
  · rw [hana, hrun]
    rfl
  · rw [hana]
    rfl
  · rw [hana]
    rfl

/-- Claim C1 (amended) at a concrete input: selector 7 against the
engine that raises `"boom"` after one export. -/
theorem claim_C1_partial_on_failure_witness :
    (run_analysis 7 [] 600 (engineConst runBoom) procState0).1
      = (runBoom.output, runBoom.saves.map exportRecord, some "boom")
    ∧ (analyze 7 paramsEmpty (engineConst runBoom) procState0).1.status
        = 200
    ∧ bodyField (analyze 7 paramsEmpty (engineConst runBoom) procState0).1
        "output" = some (Json.str runBoom.output)
    ∧ bodyField (analyze 7 paramsEmpty (engineConst runBoom) procState0).1
        "error" = some (Json.str "boom")
    ∧ bodyField (analyze 7 paramsEmpty (engineConst runBoom) procState0).1
        "exports" = some (Json.arr []) :=
  claim_C1_partial_on_failure 7 paramsEmpty (engineConst runBoom)
    procState0 [] (fun _ => runBoom) "boom" rfl rfl rfl (by decide)

/-- Claim C2: every export record produced by an engine file-export call
(an element of the exports list `run_analysis` returns) and every
element of the exports array of an HTTP response is an object with
exactly the two fields `filename` — the spec's `name`, holding a
string — and `data` — the spec's `payload`, holding a sequence. -/
theorem claim_C2_export_shape (option : Int) (q : List String) (t : Nat)
    (params : Params) (m : Engine) (s : ProcState) (j : Json)
    (h : j ∈ (run_analysis option q t m s).1.2.1
      ∨ ∃ xs, bodyField (analyze option params m s).1 "exports"
            = some (Json.arr xs) ∧ j ∈ xs) :
    ∃ n d, j = Json.obj [("filename", Json.str n), ("data", Json.arr d)] := by
  rcases h with h | ⟨xs, hxs, hmem⟩
  · exact run_analysis_export_shape option q t m s j h
  · rcases hq : buildQueue option params with msg | q2
    · rw [analyze_reject option params m s msg hq] at hxs
      have : bodyField
          ({ status := 400,
             body := Json.obj [("error", Json.str msg)] } : HttpResponse)
          "exports" = none := rfl
      rw [this] at hxs
      cases hxs
    · rcases herr : (run_analysis option q2 600 m s).1.2.2 with _ | e
      · rw [analyze_success option params m s q2 hq herr] at hxs
        have : xs = (run_analysis option q2 600 m s).1.2.1 := by
          have h2 := hxs
          rw [show bodyField
              ({ status := 200,
                 body := Json.obj
                   [("output",
                     Json.str (run_analysis option q2 600 m s).1.1),
                    ("exports",
                     Json.arr (run_analysis option q2 600 m s).1.2.1),
                    ("error", Json.null)] } : HttpResponse) "exports"
              = some (Json.arr (run_analysis option q2 600 m s).1.2.1)
            from rfl] at h2
          injection h2 with h3
          injection h3 with h4
          exact h4.symm
        rw [this] at hmem
        exact run_analysis_export_shape option q2 600 m s j hmem
      · by_cases hemp : e = ""
        · subst hemp
          rw [analyze_empty_error option params m s q2 hq herr] at hxs
          have : xs = (run_analysis option q2 600 m s).1.2.1 := by
            have h2 := hxs
            rw [show bodyField
                ({ status := 200,
                   body := Json.obj
                     [("output",
                       Json.str (run_analysis option q2 600 m s).1.1),
                      ("exports",
                       Json.arr (run_analysis option q2 600 m s).1.2.1),
                      ("error", Json.null)] } : HttpResponse) "exports"
                = some (Json.arr (run_analysis option q2 600 m s).1.2.1)
              from rfl] at h2
            injection h2 with h3
            injection h3 with h4
            exact h4.symm
          rw [this] at hmem
          exact run_analysis_export_shape option q2 600 m s j hmem
        · rw [analyze_engine_error option params m s q2 e hq herr hemp]
            at hxs
          have : xs = ([] : List Json) := by
            have h2 := hxs
            rw [show bodyField
                ({ status := 200,
                   body := Json.obj
                     [("output",
                       Json.str (run_analysis option q2 600 m s).1.1),
                      ("exports", Json.arr []),
                      ("error", Json.str e)] } : HttpResponse) "exports"
                = some (Json.arr []) from rfl] at h2
            injection h2 with h3
            injection h3 with h4
            exact h4.symm
          rw [this] at hmem
          simp at hmem

/-- Claim C2 at a concrete input: the single record exported by a
successful selector-7 invocation has the `filename`/`data` shape. -/
theorem claim_C2_export_shape_witness :
    ∃ n d, Json.obj [("filename", Json.str "out.csv"),
                     ("data", Json.arr [Json.str "r"])]
      = Json.obj [("filename", Json.str n), ("data", Json.arr d)] :=
  claim_C2_export_shape 7 [] 600 paramsEmpty (engineConst runOk)
    procState0
    (Json.obj [("filename", Json.str "out.csv"),
               ("data", Json.arr [Json.str "r"])])
    (Or.inl (by exact List.mem_singleton.mpr rfl))

/-- Claim C3: for a valid selector, on every exit path (normal return
and engine-raised error alike, since the engine's `error` component is
unconstrained here), `run_analysis` restores the process-wide input
source, output sink and working directory to their pre-invocation
values, and runs the restoration block exactly once. -/
theorem claim_C3_restoration (option : Int) (q : List String) (t : Nat)
    (m : Engine) (s : ProcState)
    (h1 : 1 ≤ option) (h8 : option ≤ 8) :
    (run_analysis option q t m s).2.inputSource = s.inputSource
    ∧ (run_analysis option q t m s).2.stdoutSink = s.stdoutSink
    ∧ (run_analysis option q t m s).2.cwd = s.cwd
    ∧ (run_analysis option q t m s).2.restores = s.restores + 1 := by
  obtain ⟨routine, hd⟩ := dispatch_valid m option h1 h8
  rw [run_analysis_valid option q t m s routine hd]
  exact ⟨rfl, rfl, rfl, rfl⟩

/-- Claim C3 at a concrete input: selector 3 against the normally
completing engine fixture. -/
theorem claim_C3_restoration_witness :
    (run_analysis 3 [] 600 (engineConst runOk) procState0).2.inputSource
        = procState0.inputSource
    ∧ (run_analysis 3 [] 600 (engineConst runOk) procState0).2.stdoutSink
        = procState0.stdoutSink
    ∧ (run_analysis 3 [] 600 (engineConst runOk) procState0).2.cwd
        = procState0.cwd
    ∧ (run_analysis 3 [] 600 (engineConst runOk) procState0).2.restores
        = procState0.restores + 1 :=
  claim_C3_restoration 3 [] 600 (engineConst runOk) procState0
    (by decide) (by decide)

/-- Claim C4: whenever validation accepts a request, the constructed
answer queue is exactly the spec's §6 table entry for that selector; in
particular, selector 1 with `domain_url = "example.com"` and
`include_subdomains` absent or false yields
`["https://example.com", "n"]`, and with `include_subdomains = true`
yields `["https://example.com", "s"]`. -/
theorem claim_C4_answer_queue (option : Int) (params : Params)
    (q : List String) (hq : buildQueue option params = Except.ok q) :
    specAnswerQueue option params = some q
    ∧ buildQueue 1 { domain_url := some "example.com" }
        = Except.ok ["https://example.com", "n"]
    ∧ buildQueue 1 { domain_url := some "example.com",
                     include_subdomains := some false }
        = Except.ok ["https://example.com", "n"]
    ∧ buildQueue 1 { domain_url := some "example.com",
                     include_subdomains := some true }
        = Except.ok ["https://example.com", "s"] :=
  ⟨(buildQueue_ok_iff_spec option params q).mp hq, rfl, rfl, rfl⟩

/-- Claim C4 at a concrete input: selector 1 with
`domain_url = "example.com"`. -/
theorem claim_C4_answer_queue_witness :
    specAnswerQueue 1 { domain_url := some "example.com" }
        = some ["https://example.com", "n"]
    ∧ buildQueue 1 { domain_url := some "example.com" }
        = Except.ok ["https://example.com", "n"]
    ∧ buildQueue 1 { domain_url := some "example.com",
                     include_subdomains := some false }
        = Except.ok ["https://example.com", "n"]
    ∧ buildQueue 1 { domain_url := some "example.com",
                     include_subdomains := some true }
        = Except.ok ["https://example.com", "s"] :=
  claim_C4_answer_queue 1 { domain_url := some "example.com" }
    ["https://example.com", "n"] rfl

/-- Claim C5: for every answer queue the endpoint constructs (those are
the queues invocations receive, and their entries are already trimmed),
the first `length q` prompts receive the queued answers front-to-back,
and every prompt after the queue is exhausted receives the empty string
instead of an error. -/
theorem claim_C5_prompt_answers (option : Int) (params : Params)
    (q : List String) (hq : buildQueue option params = Except.ok q) :
    (∀ i (h : i < q.length), nthAnswer q i = q.get ⟨i, h⟩)
    ∧ ∀ i, q.length ≤ i → nthAnswer q i = "" := by
  constructor
  · intro i h
    rw [nthAnswer_eq, dif_pos h]
    exact buildQueue_entries_stripFixed option params q hq _
      (List.get_mem q i h)
  · intro i h
    rw [nthAnswer_eq, dif_neg (Nat.not_lt.mpr h)]

/-- Claim C5 at a concrete input: the selector-1 queue for
`example.com`. -/
theorem claim_C5_prompt_answers_witness :
    nthAnswer ["https://example.com", "n"] 0 = "https://example.com"
    ∧ nthAnswer ["https://example.com", "n"] 1 = "n"
    ∧ nthAnswer ["https://example.com", "n"] 5 = "" := by
  have h := claim_C5_prompt_answers 1 { domain_url := some "example.com" }
    ["https://example.com", "n"] rfl
  exact ⟨h.1 0 (by decide), h.1 1 (by decide), h.2 5 (by decide)⟩

/-- Claim C6, refuted at a concrete input: against an engine that raises
an exception whose `str` is the empty string (`raise Exception()`),
`run_analysis` does report the error, but the endpoint's `if err:` test
is falsy for the empty string, so the response carries `error: null` —
not the non-null error field the claim promises for any exception. -/
theorem claim_C6_counterexample :
    runSilentFail.error = some ""
    ∧ (run_analysis 7 [] 600 (engineConst runSilentFail) procState0).1.2.2
        = some ""
    ∧ (analyze 7 paramsEmpty (engineConst runSilentFail)
        procState0).1.status = 200
    ∧ bodyField (analyze 7 paramsEmpty (engineConst runSilentFail)
        procState0).1 "error" = some Json.null :=
  ⟨rfl, rfl, rfl, rfl⟩

/-- Claim C6 (amended): `run_analysis` never propagates an engine
exception — it returns the stringified error as the third result
element — and the endpoint answers HTTP 200 (never a server-fault
status) for every engine-raised error; the response's `error` field is
the non-null message whenever the message is non-empty, but an exception
stringifying to the empty string is reported as `error: null` (the
`if err:` truthiness of line 182). -/
theorem claim_C6_error_downgrade (option : Int) (params : Params)
    (m : Engine) (s : ProcState) (q : List String)
    (routine : (Nat → String) → EngineRun) (e : String)
    (hq : buildQueue option params = Except.ok q)
    (hd : dispatch m option = some routine)
    (he : (routine (nthAnswer q)).error = some e) :
    (run_analysis option q 600 m s).1.2.2 = some e
    ∧ (analyze option params m s).1.status = 200
    ∧ (e ≠ "" → bodyField (analyze option params m s).1 "error"
        = some (Json.str e))
    ∧ (e = "" → bodyField (analyze option params m s).1 "error"
        = some Json.null) := by
  have hrun := run_analysis_valid option q 600 m s routine hd
  have herr : (run_analysis option q 600 m s).1.2.2 = some e := by
    rw [hrun]
    exact he
  refine ⟨herr, ?_, ?_, ?_⟩
  · by_cases hne : e = ""
    · subst hne
      rw [analyze_empty_error option params m s q hq herr]
    · rw [analyze_engine_error option params m s q e hq herr hne]
  · intro hne
    rw [analyze_engine_error option params m s q e hq herr hne]
    rfl
  · intro heq
    subst heq
    rw [analyze_empty_error option params m s q hq herr]
    rfl

/-- Claim C6 (amended) at a concrete input: the engine raising
`"boom"` on selector 7. -/
theorem claim_C6_error_downgrade_witness :
    (run_analysis 7 [] 600 (engineConst runBoom) procState0).1.2.2
      = some "boom"
    ∧ (analyze 7 paramsEmpty (engineConst runBoom) procState0).1.status
        = 200
    ∧ bodyField (analyze 7 paramsEmpty (engineConst runBoom)
        procState0).1 "error" = some (Json.str "boom") := by
  have h := claim_C6_error_downgrade 7 paramsEmpty (engineConst runBoom)
    procState0 [] (fun _ => runBoom) "boom" rfl rfl rfl
  exact ⟨h.1, h.2.1, h.2.2.1 (by decide)⟩

/-- Claim C7: a request that omits a required parameter for its selector
(or supplies it empty) is rejected with HTTP 400 and a body holding only
a non-empty error message — no `output` and no `exports` fields — and
the process state is untouched: no engine invocation happened. -/
theorem claim_C7_missing_param (option : Int) (params : Params)
    (m : Engine) (s : ProcState) (hmiss : missingRequired option params) :
    (analyze option params m s).1.status = 400
    ∧ (∃ msg, (analyze option params m s).1.body
          = Json.obj [("error", Json.str msg)] ∧ msg ≠ "")
    ∧ bodyField (analyze option params m s).1 "output" = none
    ∧ bodyField (analyze option params m s).1 "exports" = none
    ∧ (analyze option params m s).2 = s
    ∧ (analyze option params m s).2.engineCalls = s.engineCalls := by
  have herr : ∃ msg, buildQueue option params = Except.error msg
      ∧ msg ≠ "" := by
    rcases hmiss with ⟨ho, hc⟩ | ⟨ho, hc⟩ | ⟨ho, hc⟩ | ⟨ho, hc⟩
      | ⟨ho, hc⟩ | ⟨ho, hc⟩
    · subst ho
      exact ⟨_, by rw [buildQueue_one, if_pos hc], by decide⟩
    · subst ho
      exact ⟨_, by rw [buildQueue_two, if_pos hc], by decide⟩
    · subst ho
      exact ⟨_, by rw [buildQueue_three, if_pos hc], by decide⟩
    · subst ho
      exact ⟨_, by rw [buildQueue_four, if_pos hc], by decide⟩
    · subst ho
      exact ⟨_, by rw [buildQueue_five, if_pos hc], by decide⟩
    · subst ho
      exact ⟨_, by rw [buildQueue_six, if_pos hc], by decide⟩
  rcases herr with ⟨msg, hq, hmsg⟩
  rw [analyze_reject option params m s msg hq]
  exact ⟨rfl, ⟨msg, rfl, hmsg⟩, rfl, rfl, rfl, rfl⟩

/-- Claim C7 at a concrete input: selector 2 with no `niche`
parameter. -/
theorem claim_C7_missing_param_witness :
    (analyze 2 paramsEmpty (engineConst runOk) procState0).1.status = 400
    ∧ (∃ msg, (analyze 2 paramsEmpty (engineConst runOk)
          procState0).1.body
          = Json.obj [("error", Json.str msg)] ∧ msg ≠ "")
    ∧ bodyField (analyze 2 paramsEmpty (engineConst runOk) procState0).1
        "output" = none
    ∧ bodyField (analyze 2 paramsEmpty (engineConst runOk) procState0).1
        "exports" = none
    ∧ (analyze 2 paramsEmpty (engineConst runOk) procState0).2
        = procState0
    ∧ (analyze 2 paramsEmpty (engineConst runOk)
        procState0).2.engineCalls = procState0.engineCalls :=
  claim_C7_missing_param 2 paramsEmpty (engineConst runOk) procState0
    (Or.inr (Or.inl ⟨rfl, rfl⟩))

/-- Claim C8: for a selector outside 1..8, `run_analysis` returns empty
captured output, an empty export list and an error message naming the
invalid selector, without invoking any engine operation; at the HTTP
layer such a request is a validation error (HTTP 400) whose body has no
`output` and no `exports` fields, again with no engine invocation. -/
theorem claim_C8_invalid_selector (option : Int) (q : List String)
    (t : Nat) (params : Params) (m : Engine) (s : ProcState)
    (hbad : option < 1 ∨ 8 < option) :
    (run_analysis option q t m s).1
      = ("", [], some ("Opção inválida: " ++ toString option))
    ∧ (run_analysis option q t m s).2.engineCalls = s.engineCalls
    ∧ (analyze option params m s).1.status = 400
    ∧ bodyField (analyze option params m s).1 "output" = none
    ∧ bodyField (analyze option params m s).1 "exports" = none
    ∧ (analyze option params m s).2.engineCalls = s.engineCalls := by
  have hd := dispatch_invalid m option hbad
  have hrun := run_analysis_invalid option q t m s hd
  have hq := buildQueue_invalid option params hbad
  have hana := analyze_reject option params m s _ hq
  rw [hrun, hana]
  exact ⟨rfl, rfl, rfl, rfl, rfl, rfl⟩

/-- Claim C8 at a concrete input: selector 9. -/
theorem claim_C8_invalid_selector_witness :
    (run_analysis 9 [] 600 (engineConst runOk) procState0).1
      = ("", [], some ("Opção inválida: " ++ toString (9 : Int)))
    ∧ (run_analysis 9 [] 600 (engineConst runOk)
        procState0).2.engineCalls = procState0.engineCalls
    ∧ (analyze 9 paramsEmpty (engineConst runOk) procState0).1.status
        = 400
    ∧ bodyField (analyze 9 paramsEmpty (engineConst runOk) procState0).1
        "output" = none
    ∧ bodyField (analyze 9 paramsEmpty (engineConst runOk) procState0).1
        "exports" = none
    ∧ (analyze 9 paramsEmpty (engineConst runOk)
        procState0).2.engineCalls = procState0.engineCalls :=
  claim_C8_invalid_selector 9 [] 600 paramsEmpty (engineConst runOk)
    procState0 (Or.inr (by decide))

/-- Claim C9, refuted: there is no input at all on which the behaviour
of `run_analysis` depends on its `timeout_seconds` configuration value —
the parameter is accepted (line 42) and never read, so no upper bound on
invocation duration is imposed by the adapter. -/
theorem claim_C9_counterexample :
    ¬ ∃ (option : Int) (q : List String) (m : Engine) (s : ProcState)
        (t1 t2 : Nat),
        run_analysis option q t1 m s ≠ run_analysis option q t2 m s := by
  rintro ⟨option, q, m, s, t1, t2, hne⟩
  exact hne rfl

/-- Claim C9 (amended): `run_analysis` accepts a `timeout_seconds`
parameter but never uses it: its result is independent of that value,
so the adapter imposes no upper bound on invocation duration (the open
question the spec records in §9). -/
theorem claim_C9_timeout_unused (option : Int) (q : List String)
    (m : Engine) (s : ProcState) (t1 t2 : Nat) :
    run_analysis option q t1 m s = run_analysis option q t2 m s := rfl

/-- Claim C10: every answer delivered from the queue is the
whitespace-stripped form of the queued entry, hence never carries
leading or trailing whitespace; a whitespace-only entry is delivered as
the empty string — the same value delivered once the queue is
exhausted. -/
theorem claim_C10_stripped_answers (q : List String) (i : Nat)
    (h : i < q.length) :
    nthAnswer q i = pyStrip (q.get ⟨i, h⟩)
    ∧ (∀ c, (nthAnswer q i).data.head? = some c
        → c.isWhitespace = false)
    ∧ (∀ c, (nthAnswer q i).data.getLast? = some c
        → c.isWhitespace = false)
    ∧ ((q.get ⟨i, h⟩).data.all Char.isWhitespace → nthAnswer q i = "")
    ∧ ∀ j, q.length ≤ j → nthAnswer q j = "" := by
  have hi : nthAnswer q i = pyStrip (q.get ⟨i, h⟩) := by
    rw [nthAnswer_eq, dif_pos h]
  refine ⟨hi, ?_, ?_, ?_, ?_⟩
  · intro c hc
    rw [hi] at hc
    exact head_stripL_not_ws hc
  · intro c hc
    rw [hi] at hc
    exact getLast_stripL_not_ws hc
  · intro hall
    rw [hi]
    unfold pyStrip
    rw [stripL_eq_nil_of_all_ws hall]
  · intro j hj
    rw [nthAnswer_eq, dif_neg (Nat.not_lt.mpr hj)]

/-- Claim C10 at a concrete input: a padded entry and a whitespace-only
entry. -/
theorem claim_C10_stripped_answers_witness :
    nthAnswer ["  padded  ", " "] 0 = pyStrip "  padded  "
    ∧ nthAnswer ["  padded  ", " "] 1 = ""
    ∧ nthAnswer ["  padded  ", " "] 5 = "" := by
  have h0 := claim_C10_stripped_answers ["  padded  ", " "] 0 (by decide)
  have h1 := claim_C10_stripped_answers ["  padded  ", " "] 1 (by decide)
  exact ⟨h0.1, h1.2.2.2.1 (by decide), h0.2.2.2.2 5 (by decide)⟩
